import Mathlib

/-!
# Verification of the fibo-studio scene-to-parameter translator

Shallow embedding of the fibo-studio repository's core logic:
the geometry classifier, the color namer, the scene parameter
builder (both FIBO-service variants present in the repository),
the undo/redo history store, the sequential batch-generation loop,
and the generation-request orchestrator (backend proxy + client
fallback chain).

Conventions of the embedding:
* JavaScript numbers are modelled as `ℚ` (continuous quantities:
  distances, intensities, light positions) or `ℤ` (already-rounded
  angle degrees, as produced by `getCameraContext`).
* `Math.round((r * 180) / Math.PI)` on object rotations involves the
  transcendental π, so the radians→rounded-degrees conversion is
  passed to the builders as an explicit function parameter
  `radToDeg : ℚ → ℤ`; none of the verified claims depend on its value.
* JavaScript string falsiness (`a || b`) is modelled by `jsOr`, with
  `undefined` as `Option.none` and the empty string as falsy.
* Fallible operations (JSON.parse under try/catch, network calls)
  are modelled by `Option` / `Except` and by oracle functions.
-/

/-! ## Basic data model (src types) -/

/-- A 3-component vector of JS numbers, for positions / rotations / scales. -/
structure Vec3 where
  x : ℚ
  y : ℚ
  z : ℚ
deriving DecidableEq, Repr

/-- `StudioLighting` from the repository's types: 11 numeric/color fields. -/
structure StudioLighting where
  ambientIntensity : ℚ
  ambientColor : String
  keyLightIntensity : ℚ
  keyLightColor : String
  keyLightPosition : Vec3
  fillLightIntensity : ℚ
  fillLightColor : String
  fillLightPosition : Vec3
  rimLightIntensity : ℚ
  rimLightColor : String
  rimLightPosition : Vec3
deriving DecidableEq, Repr

/-- Platform type enum of `StudioEnvironment`. -/
inductive PlatformType
  | none | cylinder | cube | round_table
deriving DecidableEq, Repr

/-- Platform material enum of `StudioEnvironment`. -/
inductive PlatformMaterial
  | matte | glossy | wood | marble | metal
deriving DecidableEq, Repr

/-- `StudioEnvironment` from the repository's types. -/
structure StudioEnvironment where
  backgroundColor : String
  floorRoughness : ℚ
  floorColor : String
  platformType : PlatformType
  platformColor : String
  platformMaterial : PlatformMaterial
deriving DecidableEq, Repr

/-- `StudioConfig` (the fields consumed by the parameter builder). -/
structure StudioConfig where
  lighting : StudioLighting
  environment : StudioEnvironment
  moodDescription : String
deriving DecidableEq, Repr

/-- Object kind: `'primitive' | 'compound'`. -/
inductive ObjKind
  | primitive | compound
deriving DecidableEq, Repr

/-- Legacy simple shape enum of `StudioObject`. -/
inductive Shape
  | cube | sphere | torus | cylinder
deriving DecidableEq, Repr

/-- Part shape enum of `ObjectPart` (adds `cone`). -/
inductive PartShape
  | cube | sphere | cylinder | cone | torus
deriving DecidableEq, Repr

/-- `ObjectPart`: one primitive of a compound object. -/
structure ObjectPart where
  shape : PartShape
  position : Vec3
  rotation : Vec3
  scale : Vec3
  color : String
  roughness : ℚ
  metalness : ℚ
deriving DecidableEq, Repr

/-- `StudioObject` from the repository's types. -/
structure StudioObject where
  id : String
  name : String
  kind : ObjKind
  shape : Option Shape
  parts : Option (List ObjectPart)
  color : String
  position : Vec3
  rotation : Vec3
  scale : Vec3
  roughness : Option ℚ
  metalness : Option ℚ
deriving DecidableEq, Repr

/-- Generation style argument: `'plain' | 'professional'`. -/
inductive Style
  | plain | professional
deriving DecidableEq, Repr

/-- `CameraData`, the JSON shape produced by Scene3D's `getCameraContext`:
degrees are already `Math.round`ed to integers, distance and position are
rounded to one decimal. -/
structure CameraData where
  horizontal : String
  vertical : String
  distance : ℚ
  horizontalDeg : ℤ
  verticalDeg : ℤ
  position : Vec3
deriving DecidableEq, Repr

/-- JS `a || b` for an optional string `a`: `undefined` and `""` are falsy. -/
def jsOr (a : Option String) (b : String) : String :=
  match a with
  | some s => if s = "" then b else s
  | none => b

/-! ## Color Namer (`hexToColorName`) -/

/-- The fixed lookup table of `hexToColorName` (all keys lowercase). -/
def colorTable : List (String × String) :=
  [("#ffffff", "white"), ("#000000", "black"), ("#f4f4f5", "light gray"),
   ("#09090b", "dark black"), ("#2a221e", "dark brown"), ("#0f172a", "dark blue"),
   ("#e4e4e7", "light gray"), ("#27272a", "dark gray"), ("#5c3a2e", "brown"),
   ("#1e3a8a", "navy blue"), ("#ffba75", "warm orange"), ("#60a5fa", "sky blue")]

/-- JS `.toLowerCase()`, written as a structural map over the characters
so that it evaluates by reduction. -/
def jsToLower (s : String) : String :=
  String.mk (s.data.map Char.toLower)

/-- `hexToColorName`: exact lookup on the lowercased input, identity on miss. -/
def hexToColorName (hex : String) : String :=
  (colorTable.lookup (jsToLower hex)).getD hex

/-! ## Geometry Classifier -/

/-- `getCameraViewType` (first FIBO-service variant): vertical-angle class
from the rounded polar angle `v` in degrees. -/
def getCameraViewType (v : ℤ) : String :=
  if v < 30 then "TOP_DOWN"
  else if v < 60 then "HIGH_ANGLE"
  else if v > 120 then "WORM_EYE"
  else if v > 100 then "LOW_ANGLE"
  else "EYE_LEVEL"

/-- `getCameraAngle` (second FIBO-service variant): same thresholds, FIBO
lowercase class names. -/
def getCameraAngle (v : ℤ) : String :=
  if v < 30 then "bird_eye"
  else if v < 60 then "high_angle"
  else if v > 120 then "worm_eye"
  else if v > 100 then "low_angle"
  else "eye_level"

/-- `Math.abs` on integers, written so that it evaluates by reduction. -/
def jsAbs (n : ℤ) : ℤ :=
  if n < 0 then -n else n

/-- `jsAbs` agrees with the mathematical absolute value. -/
theorem jsAbs_eq_abs (n : ℤ) : jsAbs n = |n| := by
  unfold jsAbs
  split_ifs with h
  · exact (abs_of_neg h).symm
  · exact (abs_of_nonneg (by omega)).symm

/-- `getHorizontalView`: horizontal-position class from the rounded signed
azimuth `h` in degrees. -/
def getHorizontalView (h : ℤ) : String :=
  let absH := jsAbs h
  if absH < 15 then "FRONT"
  else if absH > 165 then "BACK"
  else if 75 ≤ absH ∧ absH ≤ 105 then
    (if h > 0 then "LEFT_SIDE" else "RIGHT_SIDE")
  else if h > 0 then "FRONT_LEFT_ANGLE"
  else "FRONT_RIGHT_ANGLE"

/-- `getCameraPosition` (second FIBO-service variant): coarser horizontal
classes used for the FIBO `camera.position` field. -/
def getCameraPosition (h : ℤ) : String :=
  let absH := jsAbs h
  if absH < 30 then "front"
  else if absH > 150 then "back"
  else if 60 ≤ absH ∧ absH ≤ 120 then
    (if h > 0 then "side_left" else "side_right")
  else if h > 0 then "three_quarter_left"
  else "three_quarter_right"

/-- `getShotType`: shot-type class from the camera distance `d`
(rounded to one decimal by `getCameraContext`). -/
def getShotType (d : ℚ) : String :=
  if d < 3 then "close_up"
  else if d < 5 then "medium_shot"
  else if d < 8 then "full_shot"
  else "wide_shot"

/-- `getLightingType`: lighting-type class from the key light intensity. -/
def getLightingType (intensity : ℚ) : String :=
  if intensity > 3/2 then "dramatic"
  else if intensity < 1/2 then "soft"
  else "studio"

/-- `Math.abs` on JS numbers (modelled as ℚ), written so that it
evaluates by reduction. -/
def jsAbsQ (q : ℚ) : ℚ :=
  if q < 0 then -q else q

/-- `jsAbsQ` agrees with the mathematical absolute value. -/
theorem jsAbsQ_eq_abs (q : ℚ) : jsAbsQ q = |q| := by
  unfold jsAbsQ
  split_ifs with h
  · exact (abs_of_neg h).symm
  · exact (abs_of_nonneg (le_of_not_lt h)).symm

/-- `getLightingDirection`: lighting-direction class from the key light
position `[x, y, z]`. -/
def getLightingDirection (p : Vec3) : String :=
  if p.y > 4 then "top"
  else if jsAbsQ p.x > jsAbsQ p.z then "side"
  else if p.z < 0 then "back"
  else "front"

/-! ## FIBO JSON parameter records -/

/-- The `scene` sub-record of `FiboJsonParams` (the builder always sets
every field, so they are modelled as plain strings). -/
structure FiboScene where
  subject : String
  subject_description : String
  background : String
  environment : String
deriving DecidableEq, Repr

/-- The `camera` sub-record of `FiboJsonParams`. -/
structure FiboCamera where
  angle : String
  shot_type : String
  position : String
deriving DecidableEq, Repr

/-- The `lighting` sub-record of `FiboJsonParams`. -/
structure FiboLighting where
  type : String
  direction : String
  intensity : String
  color_temperature : String
deriving DecidableEq, Repr

/-- The `color_palette` sub-record of `FiboJsonParams`. -/
structure FiboColorPalette where
  primary : String
  background : String
  secondary : String
  mood : String
deriving DecidableEq, Repr

/-- The `composition` sub-record of `FiboJsonParams`. -/
structure FiboComposition where
  framing : String
  orientation : String
deriving DecidableEq, Repr

/-- The `style` sub-record of `FiboJsonParams`. -/
structure FiboStyleSpec where
  type : String
  quality : String
deriving DecidableEq, Repr

/-- `FiboJsonParams`: the structured parameter object sent to the provider.
The degraded retry payload carries only prompt/num_results/sync, so the
sub-records are optional exactly as in the TypeScript interface. -/
structure FiboJsonParams where
  prompt : String
  num_results : ℕ
  sync : Bool
  scene : Option FiboScene
  camera : Option FiboCamera
  lighting : Option FiboLighting
  color_palette : Option FiboColorPalette
  composition : Option FiboComposition
  style : Option FiboStyleSpec
deriving DecidableEq, Repr

/-! ## Shared builder helpers (identical in both FIBO-service variants) -/

/-- The canonical default camera data substituted by the builder's
`catch` branch when `JSON.parse(cameraContext)` fails. -/
def defaultCameraData : CameraData :=
  { horizontal := "front view"
    vertical := "eye-level"
    distance := 6
    horizontalDeg := 0
    verticalDeg := 90
    position := { x := 0, y := 2, z := 6 } }

/-- The try/catch around `JSON.parse`: a parse failure (`none`) yields the
default camera data. -/
def resolveCameraData (parsed : Option CameraData) : CameraData :=
  parsed.getD defaultCameraData

/-- Outcome of `JSON.parse(cameraContext)` under the builder's try/catch,
which guards only the parse itself. `parseError`: the string is not valid
JSON, `JSON.parse` throws inside the try and the catch substitutes the
default geometry. `null`: the string is the valid JSON "null", so the
parse succeeds and `cameraData` is the null value — the catch is not
entered, and the later unguarded `cameraData` property reads throw a
TypeError. `data`: the parse succeeds with a camera record. Valid JSON
that is neither null nor an object (a number, a string, a boolean, an
array) is not modelled: in JS a property read on such a value yields
undefined without throwing, so those inputs do not affect the throw
behaviour the claim is about. -/
inductive CameraParseOutcome where
  | parseError
  | null
  | data (cd : CameraData)
deriving DecidableEq, Repr

/-- A JS TypeError thrown by reading a property of null, carrying the
property name being read. -/
structure JsTypeError where
  field : String
deriving DecidableEq, Repr

/-- `variationPrompt || objects.map(o => o.name).join(" and ")`. -/
def objectName (objects : List StudioObject) (variationPrompt : Option String) : String :=
  jsOr variationPrompt (String.intercalate " and " (objects.map (fun o => o.name)))

/-- The object orientation/pose computation: rotation radians are converted
to rounded degrees by `radToDeg` (modelling `Math.round(r * 180 / Math.PI)`),
then |rx|>30 or |rz|>30 marks the object tilted and |ry|>10 appends a
horizontal-turn phrase. Returns `(objectOrientation, objectPose)`. -/
def objectOrientationPose (radToDeg : ℚ → ℤ) (objects : List StudioObject) :
    String × String :=
  match objects.head? with
  | none => ("upright", "")
  | some mainObject =>
    let rxDeg := radToDeg mainObject.rotation.x
    let ryDeg := radToDeg mainObject.rotation.y
    let rzDeg := radToDeg mainObject.rotation.z
    let base : String × String :=
      if jsAbs rxDeg > 30 ∨ jsAbs rzDeg > 30 then
        ("tilted",
         "rotated " ++ toString rxDeg ++ "° on X-axis, " ++ toString rzDeg ++ "° on Z-axis")
      else ("upright", "")
    if jsAbs ryDeg > 10 then
      (base.1, base.2 ++ " turned " ++ toString ryDeg ++ "° horizontally")
    else base

/-- The prompt clause `objectOrientation !== "upright" ? objectPose :
"standing upright"` used by both builder variants. -/
def orientationClause (radToDeg : ℚ → ℤ) (objects : List StudioObject) : String :=
  let op := objectOrientationPose radToDeg objects
  if op.1 ≠ "upright" then op.2 else "standing upright"

/-- `mainObject ? hexToColorName(mainObject.color) : "neutral"`. -/
def mainObjectColorName (objects : List StudioObject) : String :=
  match objects.head? with
  | some o => hexToColorName o.color
  | none => "neutral"

namespace Fibo1

/-- `getSpatialDescription` of the first FIBO-service variant: a detailed
spatial description for the prompt, joined with `". "`. The vertical block
appends nothing for `WORM_EYE` (the source has no branch for it). -/
def getSpatialDescription (cd : CameraData) : String :=
  let viewType := getCameraViewType cd.verticalDeg
  let horizontalView := getHorizontalView cd.horizontalDeg
  let distance := cd.distance
  let vparts : List String :=
    if viewType = "TOP_DOWN" then
      ["Camera positioned directly above the object, looking straight down",
       "Object is centered below the camera",
       "Show the top surface of the object clearly"]
    else if viewType = "HIGH_ANGLE" then
      ["Camera positioned above and in front of the object at " ++
         toString cd.verticalDeg ++ "° angle",
       "Object is below and in front of the camera",
       "Show top and front surfaces of the object"]
    else if viewType = "EYE_LEVEL" then
      ["Camera positioned at eye level with the object",
       "Object is directly in front of the camera",
       "Show the front-facing surface of the object"]
    else if viewType = "LOW_ANGLE" then
      ["Camera positioned below the object at " ++
         toString (180 - cd.verticalDeg) ++ "° angle",
       "Object is above and in front of the camera",
       "Show bottom and front surfaces of the object"]
    else []
  let hparts : List String :=
    if horizontalView = "FRONT" then
      ["Camera is directly in front of the object", "Object faces the camera"]
    else if horizontalView = "LEFT_SIDE" then
      ["Camera is positioned to the LEFT side of the object",
       "Object's left side faces the camera",
       "Show the left profile of the object"]
    else if horizontalView = "RIGHT_SIDE" then
      ["Camera is positioned to the RIGHT side of the object",
       "Object's right side faces the camera",
       "Show the right profile of the object"]
    else if horizontalView = "BACK" then
      ["Camera is positioned behind the object",
       "Object's back faces the camera",
       "Show the back of the object"]
    else if horizontalView = "FRONT_LEFT_ANGLE" then
      ["Camera is at a front-left angle (" ++ toString cd.horizontalDeg ++
         "° from front)",
       "Show both front and left surfaces of the object"]
    else if horizontalView = "FRONT_RIGHT_ANGLE" then
      ["Camera is at a front-right angle (" ++ toString (jsAbs cd.horizontalDeg) ++
         "° from front)",
       "Show both front and right surfaces of the object"]
    else []
  let dparts : List String :=
    if distance < 3 then
      ["Close-up shot - object fills most of the frame"]
    else if distance < 5 then
      ["Medium shot - object with some space around it"]
    else if distance < 8 then
      ["Full shot - complete object visible with environment"]
    else
      ["Wide shot - object with significant space and environment visible"]
  String.intercalate ". " (vparts ++ hparts ++ dparts)

/-- `buildFiboJsonParams` of the first FIBO-service variant
("Optimized for exact scene reproduction with precise spatial
understanding"): camera classes use the uppercase names
(`EYE_LEVEL`, `FRONT`, ...) and `lighting.direction` is the fixed
string "front". `parsedCamera` is the outcome of the guarded
`JSON.parse(cameraContext)`. -/
def buildFiboJsonParams (radToDeg : ℚ → ℤ) (config : StudioConfig)
    (objects : List StudioObject) (style : Style)
    (parsedCamera : Option CameraData) (variationPrompt : Option String) :
    FiboJsonParams :=
  let cameraData := resolveCameraData parsedCamera
  let objName := objectName objects variationPrompt
  let mainObject := objects.head?
  let op := objectOrientationPose radToDeg objects
  let objectOrientation := op.1
  let objectPose := op.2
  let viewType := getCameraViewType cameraData.verticalDeg
  let horizontalView := getHorizontalView cameraData.horizontalDeg
  let distance := cameraData.distance
  let bgColorName := hexToColorName config.environment.backgroundColor
  let floorColorName := hexToColorName config.environment.floorColor
  let objectColorName := mainObjectColorName objects
  let promptParts : List String :=
    ["Generate a " ++ objName,
     "[SPATIAL CONSTRAINT] " ++ getSpatialDescription cameraData,
     "[VIEW TYPE] " ++ viewType ++ " view from " ++ horizontalView ++ " angle",
     if objectColorName ≠ "neutral" then objectColorName ++ " colored" else "",
     orientationClause radToDeg objects,
     if bgColorName = "white" ∨ bgColorName = "light gray" then
       "pure white studio background, clean white cyclorama, no shadows on background"
     else "solid " ++ bgColorName ++ " background",
     if floorColorName = "white" ∨ floorColorName = "light gray" then
       "white studio floor, seamless white surface"
     else floorColorName ++ " floor surface",
     (match style with
      | .professional =>
        "professional studio product photography, three-point lighting setup, key light from front-left, fill light from front-right, back light for separation, photorealistic rendering, 8K resolution, commercial quality, perfectly lit, studio environment, white cyclorama background, clean shadows, professional lighting"
      | .plain =>
        "clean studio product photograph, soft studio lighting, white background, simple professional lighting, well-lit, studio environment"),
     "DO NOT change camera angle",
     "DO NOT rotate object from specified view",
     "DO NOT change perspective or viewpoint",
     "DO NOT reposition object",
     "DO NOT use different camera position",
     "single isolated object only",
     "no other objects in scene",
     "no props",
     "no decorations",
     "no people",
     "no text",
     "centered composition",
     "clean background",
     "no shadows on background",
     "professional quality"]
  { prompt := String.intercalate ", " (promptParts.filter (fun s => s != ""))
    num_results := 1
    sync := true
    scene := some
      { subject := objName
        subject_description := objectColorName ++ " " ++ objName ++ ", " ++
          objectOrientation ++ ", isolated on " ++ bgColorName ++
          " background, viewed from " ++ horizontalView ++ " at " ++ viewType
        background := bgColorName
        environment := "studio" }
    camera := some
      { angle := viewType
        shot_type :=
          if distance < 3 then "close_up"
          else if distance < 5 then "medium_shot"
          else if distance < 8 then "full_shot"
          else "wide_shot"
        position := horizontalView }
    lighting := some
      { type :=
          if config.lighting.keyLightIntensity > 3/2 then "dramatic"
          else if config.lighting.keyLightIntensity < 1/2 then "soft"
          else "studio"
        direction := "front"
        intensity := if config.lighting.keyLightIntensity > 1 then "high" else "medium"
        color_temperature := "neutral" }
    color_palette := some
      { primary := jsOr (mainObject.map (fun o => o.color)) "#ffffff"
        background := config.environment.backgroundColor
        secondary := config.environment.floorColor
        mood := match style with | .professional => "vibrant" | .plain => "neutral" }
    composition := some { framing := "centered", orientation := "square" }
    style := some
      { type := "photorealistic"
        quality := match style with | .professional => "ultra" | .plain => "high" } }

end Fibo1

namespace Fibo2

/-- `buildFiboJsonParams` of the second FIBO-service variant ("Optimized
for exact scene reproduction"): camera classes use the FIBO lowercase
names via `getCameraAngle` / `getCameraPosition`, the prompt is built from
the three description maps, and `lighting.direction` is derived from the
key light position via `getLightingDirection`. The JS
`cameraPosition.includes("side") / .includes("three_quarter")` tests are
written as equality tests over `getCameraPosition`'s closed range of six
values. `Math.round` applied to the already-integral degree fields is the
identity and is omitted. -/
def buildFiboJsonParams (radToDeg : ℚ → ℤ) (config : StudioConfig)
    (objects : List StudioObject) (style : Style)
    (parsedCamera : Option CameraData) (variationPrompt : Option String) :
    FiboJsonParams :=
  let cameraData := resolveCameraData parsedCamera
  let objName := objectName objects variationPrompt
  let mainObject := objects.head?
  let op := objectOrientationPose radToDeg objects
  let objectOrientation := op.1
  let objectPose := op.2
  let cameraAngle := getCameraAngle cameraData.verticalDeg
  let cameraPosition := getCameraPosition cameraData.horizontalDeg
  let shotType := getShotType cameraData.distance
  let bgColorName := hexToColorName config.environment.backgroundColor
  let floorColorName := hexToColorName config.environment.floorColor
  let objectColorName := mainObjectColorName objects
  let angleDescMap : List (String × String) :=
    [("bird_eye", "top-down view (" ++ toString cameraData.verticalDeg ++ "° from above)"),
     ("high_angle", "high angle looking down (" ++ toString cameraData.verticalDeg ++ "° elevation)"),
     ("eye_level", "straight-on eye level view"),
     ("low_angle", "low angle looking up (" ++ toString cameraData.verticalDeg ++ "° from ground)"),
     ("worm_eye", "extreme low angle from below")]
  let positionDescMap : List (String × String) :=
    [("front", "directly from the front"),
     ("back", "from behind"),
     ("side_left", "from the left side (" ++ toString (jsAbs cameraData.horizontalDeg) ++ "° angle)"),
     ("side_right", "from the right side (" ++ toString (jsAbs cameraData.horizontalDeg) ++ "° angle)"),
     ("three_quarter_left", "three-quarter view from left (" ++ toString (jsAbs cameraData.horizontalDeg) ++ "° from front)"),
     ("three_quarter_right", "three-quarter view from right (" ++ toString (jsAbs cameraData.horizontalDeg) ++ "° from front)")]
  let shotDescMap : List (String × String) :=
    [("close_up", "close-up shot filling the frame"),
     ("medium_shot", "medium shot with some space around"),
     ("full_shot", "full shot showing complete object"),
     ("wide_shot", "wide shot with environment visible")]
  let promptParts : List String :=
    ["Single " ++ objName,
     if objectColorName ≠ "neutral" then objectColorName ++ " colored" else "",
     orientationClause radToDeg objects,
     (angleDescMap.lookup cameraAngle).getD "",
     (positionDescMap.lookup cameraPosition).getD "",
     (shotDescMap.lookup shotType).getD "",
     "solid " ++ bgColorName ++ " background",
     floorColorName ++ " floor surface",
     (match style with
      | .professional =>
        "professional product photography, photorealistic rendering, 8K resolution, studio lighting, commercial quality"
      | .plain => "clean product photograph, simple lighting"),
     "single isolated object only",
     "no other objects in scene",
     "no props",
     "no decorations",
     "centered composition"]
  { prompt := String.intercalate ", " (promptParts.filter (fun s => s != ""))
    num_results := 1
    sync := true
    scene := some
      { subject := objName
        subject_description := objectColorName ++ " " ++ objName ++ ", " ++
          objectOrientation ++ ", isolated on " ++ bgColorName ++ " background"
        background := bgColorName
        environment := "studio" }
    camera := some
      { angle := cameraAngle
        shot_type := shotType
        position :=
          if cameraPosition = "side_left" ∨ cameraPosition = "side_right" then "side"
          else if cameraPosition = "three_quarter_left" ∨
              cameraPosition = "three_quarter_right" then "three_quarter"
          else cameraPosition }
    lighting := some
      { type := getLightingType config.lighting.keyLightIntensity
        direction := getLightingDirection config.lighting.keyLightPosition
        intensity := if config.lighting.keyLightIntensity > 1 then "high" else "medium"
        color_temperature := "neutral" }
    color_palette := some
      { primary := jsOr (mainObject.map (fun o => o.color)) "#ffffff"
        background := config.environment.backgroundColor
        secondary := config.environment.floorColor
        mood := match style with | .professional => "vibrant" | .plain => "neutral" }
    composition := some { framing := "centered", orientation := "square" }
    style := some
      { type := "photorealistic"
        quality := match style with | .professional => "ultra" | .plain => "high" } }

end Fibo2

/-- `buildFiboJsonParams` (first variant) viewed from the camera-context
string level. Only `JSON.parse` sits inside the try/catch: a parse error
is caught and the default geometry substituted; a successful parse of
"null" leaves `cameraData = null` and the first unguarded property read —
`Math.abs(cameraData.horizontalDeg)` inside `getCameraViewType`, reached
from the `const viewType = getCameraViewType()` call — throws an uncaught
TypeError, so the builder does not return. -/
def Fibo1.buildFiboJsonParamsFromContext (radToDeg : ℚ → ℤ) (config : StudioConfig)
    (objects : List StudioObject) (style : Style)
    (parsed : CameraParseOutcome) (variationPrompt : Option String) :
    Except JsTypeError FiboJsonParams :=
  match parsed with
  | .parseError =>
    .ok (Fibo1.buildFiboJsonParams radToDeg config objects style none variationPrompt)
  | .null => .error { field := "horizontalDeg" }
  | .data cd =>
    .ok (Fibo1.buildFiboJsonParams radToDeg config objects style (some cd) variationPrompt)

/-- `buildFiboJsonParams` (second variant) viewed from the camera-context
string level, as for the first variant; here the first unguarded property
read on the null `cameraData` is `cameraData.verticalDeg` inside
`getCameraAngle`, reached from the `const cameraAngle = getCameraAngle()`
call. -/
def Fibo2.buildFiboJsonParamsFromContext (radToDeg : ℚ → ℤ) (config : StudioConfig)
    (objects : List StudioObject) (style : Style)
    (parsed : CameraParseOutcome) (variationPrompt : Option String) :
    Except JsTypeError FiboJsonParams :=
  match parsed with
  | .parseError =>
    .ok (Fibo2.buildFiboJsonParams radToDeg config objects style none variationPrompt)
  | .null => .error { field := "verticalDeg" }
  | .data cd =>
    .ok (Fibo2.buildFiboJsonParams radToDeg config objects style (some cd) variationPrompt)

/-! ## Scene History Store (`useUndoRedo`) -/

/-- The state held by the `useUndoRedo` hook: the snapshot array and the
current pointer. -/
structure UndoRedoState (α : Type) where
  history : List α
  index : ℕ
deriving DecidableEq, Repr

namespace UndoRedoState

/-- `useUndoRedo(initialState)`: history `[initialState]`, pointer 0. -/
def init {α : Type} (initialState : α) : UndoRedoState α :=
  { history := [initialState], index := 0 }

/-- `setState(newState)` (exposed as `pushState`): slice off everything
after the pointer, append the new snapshot, point at it. -/
def pushState {α : Type} (s : UndoRedoState α) (newState : α) : UndoRedoState α :=
  { history := s.history.take (s.index + 1) ++ [newState]
    index := (s.history.take (s.index + 1) ++ [newState]).length - 1 }

/-- `undo()`: move the pointer back one step, no-op at the first entry. -/
def undo {α : Type} (s : UndoRedoState α) : UndoRedoState α :=
  if s.index > 0 then { s with index := s.index - 1 } else s

/-- `redo()`: move the pointer forward one step, no-op at the last entry. -/
def redo {α : Type} (s : UndoRedoState α) : UndoRedoState α :=
  if s.index < s.history.length - 1 then { s with index := s.index + 1 } else s

/-- The hook's `state` value: `history[index]`. -/
def current {α : Type} (s : UndoRedoState α) : Option α :=
  s.history.get? s.index

end UndoRedoState

/-! ## Batch generation (`handleBatchGenerate`) -/

/-- One sequential batch run. The provider call chain behind
`generateStudioImage` is abstracted as an oracle `gen` from the variant
prompt to either an image URL or a thrown error; a gallery entry is
represented by its URL. The whole `for` loop of `handleBatchGenerate` sits
inside a single `try`, so the first thrown error aborts the remaining
variants; each success is prepended to the gallery (`[newImage, ...prev]`,
newest first). Returns the final gallery, the list of variants actually
attempted (in order), and the error shown to the user via `alert`, if any. -/
def handleBatchGenerate (gen : String → Except String String)
    (gallery : List String) : List String → List String × List String × Option String
  | [] => (gallery, [], none)
  | p :: ps =>
    match gen p with
    | .ok url =>
      let rest := handleBatchGenerate gen (url :: gallery) ps
      (rest.1, p :: rest.2.1, rest.2.2)
    | .error e => (gallery, [p], some e)

/-! ## Generation Request Orchestrator -/

/-- Outcome of one provider fetch: a parsed 2xx body, a non-2xx HTTP
response, or a thrown network error. -/
inductive NetResult (α : Type) where
  | ok (val : α)
  | httpErr (status : ℕ) (text : String)
  | thrown (msg : String)

/-- The payload the backend route sends to the primary (FAL) provider. -/
structure FalRequest where
  prompt : String
  num_images : ℕ
  enable_safety_checker : Bool
deriving DecidableEq, Repr

/-- A successful primary-provider body; each image is represented by its
URL (the route's `img.url || img` normalization). -/
structure FalData where
  images : List String
deriving DecidableEq, Repr

/-- One entry of the FIBO response `result` array. -/
structure FiboResultEntry where
  urls : List String
  seed : Option ℕ
deriving DecidableEq, Repr

/-- The FIBO-shaped response body `{result: [...]}`. -/
structure FiboResponse where
  result : List FiboResultEntry
deriving DecidableEq, Repr

/-- Body of an HTTP response from the backend route: either FIBO-shaped
JSON or an `{error: ...}` object. -/
inductive RespBody where
  | json (data : FiboResponse)
  | err (msg : String)
deriving DecidableEq, Repr

/-- An HTTP response (status + body). -/
structure HttpResponse where
  status : ℕ
  body : RespBody
deriving DecidableEq, Repr

/-- `response.ok`: status in the 2xx range. -/
def HttpResponse.isOk (r : HttpResponse) : Bool :=
  decide (200 ≤ r.status ∧ r.status < 300)

/-- `data.result?.[0]?.urls?.[0]`: the first URL of the first result
entry, when present. -/
def RespBody.firstUrl : RespBody → Option String
  | .json data =>
    match data.result with
    | [] => none
    | entry :: _ => entry.urls.head?
  | .err _ => none

/-- One provider attempt made by the backend route, with the exact
payload sent. -/
inductive ProviderAttempt where
  | fal (req : FalRequest)
  | bria (body : FiboJsonParams)
deriving DecidableEq, Repr

/-- The backend route's environment: which API keys are configured, the
two provider endpoints as oracles, and the value drawn from
`Math.random()` for the normalized seed. -/
structure ServerEnv where
  falApiKey : Option String
  fiboApiKey : Option String
  falCall : FalRequest → NetResult FalData
  briaCall : FiboJsonParams → NetResult FiboResponse
  randomSeed : ℕ

/-- The route's 503 message when every configured provider failed. -/
def svcUnavailableMsg : String :=
  "Image generation service unavailable. Please ensure FAL_API_KEY is set in environment variables. Get one at https://fal.ai"

/-- The route's 500 message when no API key is configured at all. -/
def noKeyMsg : String :=
  "Image generation API key not configured. Please set FAL_API_KEY or FIBO_API_KEY in environment variables."

/-- The payload the route sends to FAL for a given request body:
`{prompt: body.prompt || "A simple object", num_images: body.num_results
|| 1, enable_safety_checker: false}` (JS falsiness on the number models
`num_results || 1`). -/
def falRequestOf (body : FiboJsonParams) : FalRequest :=
  { prompt := jsOr (some body.prompt) "A simple object"
    num_images := if body.num_results = 0 then 1 else body.num_results
    enable_safety_checker := false }

/-- The primary-provider (FAL) step of the route: skipped entirely when
no FAL key is configured; otherwise one fetch. A 2xx body with a
non-empty `images` array is normalized to `{result:[{urls, seed:
random}]}`; a non-2xx answer, a thrown fetch, or a 2xx body without
images falls through (`none`). The attempts made are returned alongside. -/
def falStep (env : ServerEnv) (body : FiboJsonParams) :
    Option HttpResponse × List ProviderAttempt :=
  match env.falApiKey with
  | none => (none, [])
  | some _ =>
    match env.falCall (falRequestOf body) with
    | .ok falData =>
      match falData.images with
      | [] => (none, [.fal (falRequestOf body)])
      | _ :: _ =>
        (some { status := 200,
                body := .json { result :=
                  [{ urls := falData.images, seed := some env.randomSeed }] } },
         [.fal (falRequestOf body)])
    | .httpErr _ _ => (none, [.fal (falRequestOf body)])
    | .thrown _ => (none, [.fal (falRequestOf body)])

/-- The `POST /generate-fibo` backend route. Returns the HTTP response
together with the ordered list of provider attempts it made. With no key
at all the answer is 500 with `noKeyMsg`. Otherwise the primary (FAL)
provider is tried first (`falStep`); on fall-through the secondary
(BRIA) provider is attempted when its key is configured, forwarding the
full request body verbatim (the distinct `api_token` auth header carries
no information beyond which provider is called, so it is implicit in the
attempt constructor). If everything configured has failed, the route
answers 503 with `svcUnavailableMsg`. -/
def generateFiboRoute (env : ServerEnv) (body : FiboJsonParams) :
    HttpResponse × List ProviderAttempt :=
  if env.falApiKey.isNone ∧ env.fiboApiKey.isNone then
    ({ status := 500, body := .err noKeyMsg }, [])
  else
    match falStep env body with
    | (some resp, trace) => (resp, trace)
    | (none, trace) =>
      match env.fiboApiKey with
      | none => ({ status := 503, body := .err svcUnavailableMsg }, trace)
      | some _ =>
        match env.briaCall body with
        | .ok data => ({ status := 200, body := .json data }, trace ++ [.bria body])
        | .httpErr _ _ =>
          ({ status := 503, body := .err svcUnavailableMsg }, trace ++ [.bria body])
        | .thrown _ =>
          ({ status := 503, body := .err svcUnavailableMsg }, trace ++ [.bria body])

/-- The client's degraded retry payload: only `{prompt, num_results: 1,
sync: true}`. -/
def degradedPayload (prompt : String) : FiboJsonParams :=
  { prompt := prompt, num_results := 1, sync := true,
    scene := none, camera := none, lighting := none,
    color_palette := none, composition := none, style := none }

/-- `generateFiboImageFromReference`, after `buildFiboJsonParams`: post
the full structured parameters to the backend proxy; on a non-2xx answer
retry once with the degraded payload; surface the first URL on success
and a thrown error message otherwise. Returns the outcome together with
the ordered list of request bodies sent to the proxy. -/
def generateFiboImageFromReference (serverFn : FiboJsonParams → HttpResponse)
    (fiboParams : FiboJsonParams) : Except String String × List FiboJsonParams :=
  if (serverFn fiboParams).isOk then
    match (serverFn fiboParams).body.firstUrl with
    | some u => (.ok u, [fiboParams])
    | none => (.error "No image URL in response", [fiboParams])
  else
    if (serverFn (degradedPayload fiboParams.prompt)).isOk then
      match (serverFn (degradedPayload fiboParams.prompt)).body.firstUrl with
      | some u => (.ok u, [fiboParams, degradedPayload fiboParams.prompt])
      | none =>
        match (serverFn fiboParams).body.firstUrl with
        | some u => (.ok u, [fiboParams, degradedPayload fiboParams.prompt])
        | none =>
          (.error "No image URL in response",
           [fiboParams, degradedPayload fiboParams.prompt])
    else
      (.error ("Backend API error: " ++ toString (serverFn fiboParams).status),
       [fiboParams, degradedPayload fiboParams.prompt])

/-! ## Claim theorems -/

/-- C1: the view-angle class of the rounded polar angle φ is
TOP_DOWN/bird_eye for φ < 30, HIGH_ANGLE for 30 ≤ φ < 60, EYE_LEVEL for
60 ≤ φ ≤ 100, LOW_ANGLE for 100 < φ ≤ 120 and WORM_EYE for φ > 120, in
both FIBO-service variants; the boundaries 30, 60, 100, 120 map to the
lower-magnitude class and φ = 90 (every camera position with y = 0) is
EYE_LEVEL. -/
theorem C1_polar_angle_classes (v : ℤ) :
    (v < 30 → getCameraViewType v = "TOP_DOWN" ∧ getCameraAngle v = "bird_eye") ∧
    (30 ≤ v → v < 60 → getCameraViewType v = "HIGH_ANGLE" ∧ getCameraAngle v = "high_angle") ∧
    (60 ≤ v → v ≤ 100 → getCameraViewType v = "EYE_LEVEL" ∧ getCameraAngle v = "eye_level") ∧
    (100 < v → v ≤ 120 → getCameraViewType v = "LOW_ANGLE" ∧ getCameraAngle v = "low_angle") ∧
    (120 < v → getCameraViewType v = "WORM_EYE" ∧ getCameraAngle v = "worm_eye") ∧
    (getCameraViewType 30 = "HIGH_ANGLE" ∧ getCameraAngle 30 = "high_angle") ∧
    (getCameraViewType 60 = "EYE_LEVEL" ∧ getCameraAngle 60 = "eye_level") ∧
    (getCameraViewType 100 = "EYE_LEVEL" ∧ getCameraAngle 100 = "eye_level") ∧
    (getCameraViewType 120 = "LOW_ANGLE" ∧ getCameraAngle 120 = "low_angle") ∧
    (getCameraViewType 90 = "EYE_LEVEL" ∧ getCameraAngle 90 = "eye_level") := by
  refine ⟨?_, ?_, ?_, ?_, ?_, ?_, ?_, ?_, ?_, ?_⟩ <;>
    intros <;>
    simp only [getCameraViewType, getCameraAngle] <;>
    split_ifs <;>
    first
      | exact ⟨rfl, rfl⟩
      | rfl
      | (exfalso; omega)

/-- Witness for C1 at the concrete polar angle 45. -/
theorem C1_polar_angle_classes_witness :
    getCameraViewType 45 = "HIGH_ANGLE" ∧ getCameraAngle 45 = "high_angle" :=
  (C1_polar_angle_classes 45).2.1 (by decide) (by decide)

/-- C2: the horizontal-position class of the rounded signed azimuth θ in
−180..180 is FRONT for |θ| < 15, BACK for |θ| > 165, LEFT_SIDE for
75 ≤ |θ| ≤ 105 with θ > 0, RIGHT_SIDE for 75 ≤ |θ| ≤ 105 with θ < 0, and
otherwise FRONT_LEFT_ANGLE for θ > 0 and FRONT_RIGHT_ANGLE for θ < 0;
in particular θ = 90 gives LEFT_SIDE and θ = −90 gives RIGHT_SIDE. -/
theorem C2_horizontal_position_classes (θ : ℤ) (hlo : -180 ≤ θ) (hhi : θ ≤ 180) :
    (|θ| < 15 → getHorizontalView θ = "FRONT") ∧
    (165 < |θ| → getHorizontalView θ = "BACK") ∧
    (75 ≤ |θ| → |θ| ≤ 105 → 0 < θ → getHorizontalView θ = "LEFT_SIDE") ∧
    (75 ≤ |θ| → |θ| ≤ 105 → θ < 0 → getHorizontalView θ = "RIGHT_SIDE") ∧
    (15 ≤ |θ| → |θ| ≤ 165 → ¬(75 ≤ |θ| ∧ |θ| ≤ 105) → 0 < θ →
      getHorizontalView θ = "FRONT_LEFT_ANGLE") ∧
    (15 ≤ |θ| → |θ| ≤ 165 → ¬(75 ≤ |θ| ∧ |θ| ≤ 105) → θ < 0 →
      getHorizontalView θ = "FRONT_RIGHT_ANGLE") ∧
    getHorizontalView 90 = "LEFT_SIDE" ∧ getHorizontalView (-90) = "RIGHT_SIDE" := by
  refine ⟨?_, ?_, ?_, ?_, ?_, ?_, by decide, by decide⟩ <;>
    rcases abs_cases θ with ⟨he, hn⟩ | ⟨he, hn⟩ <;>
    intros <;>
    simp only [getHorizontalView, jsAbs_eq_abs, he] at * <;>
    split_ifs at * <;>
    first
      | rfl
      | (exfalso; omega)

/-- Witness for C2 at the concrete azimuth 90. -/
theorem C2_horizontal_position_classes_witness :
    getHorizontalView 90 = "LEFT_SIDE" :=
  (C2_horizontal_position_classes 90 (by decide) (by decide)).2.2.1
    (by decide) (by decide) (by decide)

/-- C3: the shot-type class of the rounded distance r is close_up for
r < 3, medium_shot for 3 ≤ r < 5, full_shot for 5 ≤ r < 8 and wide_shot
for r ≥ 8; the boundary r = 5 gives full_shot; and the `camera.shot_type`
field produced by both builder variants is exactly this class of the
(possibly defaulted) camera distance. -/
theorem C3_shot_type_classes (r : ℚ) (radToDeg : ℚ → ℤ) (config : StudioConfig)
    (objects : List StudioObject) (style : Style) (cam : Option CameraData)
    (vp : Option String) :
    (r < 3 → getShotType r = "close_up") ∧
    (3 ≤ r → r < 5 → getShotType r = "medium_shot") ∧
    (5 ≤ r → r < 8 → getShotType r = "full_shot") ∧
    (8 ≤ r → getShotType r = "wide_shot") ∧
    getShotType 5 = "full_shot" ∧
    ((Fibo1.buildFiboJsonParams radToDeg config objects style cam vp).camera.map
        (fun c => c.shot_type) = some (getShotType (resolveCameraData cam).distance)) ∧
    ((Fibo2.buildFiboJsonParams radToDeg config objects style cam vp).camera.map
        (fun c => c.shot_type) = some (getShotType (resolveCameraData cam).distance)) := by
  refine ⟨?_, ?_, ?_, ?_, ?_, rfl, rfl⟩ <;>
    intros <;>
    unfold getShotType <;>
    split_ifs <;>
    first
      | rfl
      | linarith

/-- Witness for C3 at the boundary distance r = 5. -/
theorem C3_shot_type_classes_witness :
    getShotType 5 = "full_shot" :=
  (C3_shot_type_classes 5 (fun _ => 0)
      { lighting :=
          { ambientIntensity := 0, ambientColor := "", keyLightIntensity := 1,
            keyLightColor := "", keyLightPosition := { x := 0, y := 0, z := 0 },
            fillLightIntensity := 0, fillLightColor := "",
            fillLightPosition := { x := 0, y := 0, z := 0 },
            rimLightIntensity := 0, rimLightColor := "",
            rimLightPosition := { x := 0, y := 0, z := 0 } }
        environment :=
          { backgroundColor := "#ffffff", floorRoughness := 0,
            floorColor := "#ffffff", platformType := .none,
            platformColor := "", platformMaterial := .matte }
        moodDescription := "" }
      [] .plain none none).2.2.1 (by norm_num) (by norm_num)

/-- C4: `hexToColorName` returns the table's name for any input whose
lowercasing matches a table key, and returns the input itself, unchanged,
for any input matching no table key (identity on misses — no
nearest-color computation). -/
theorem C4_color_namer (s : String) :
    (∀ p, p ∈ colorTable → jsToLower s = p.1 → hexToColorName s = p.2) ∧
    ((∀ p, p ∈ colorTable → jsToLower s ≠ p.1) → hexToColorName s = s) := by
  constructor
  · intro p hp hlow
    fin_cases hp <;> (unfold hexToColorName; rw [hlow]; rfl)
  · intro h
    unfold hexToColorName
    have hnone : colorTable.lookup (jsToLower s) = none := by
      rw [List.lookup_eq_none_iff]
      intro p hp
      exact bne_iff_ne.mpr (h p hp)
    rw [hnone]
    rfl

/-- Witness for C4: an uppercase table hit maps to its name, and the
off-table hex #8B4513 comes back unchanged. -/
theorem C4_color_namer_witness :
    hexToColorName "#FFFFFF" = "white" ∧ hexToColorName "#8B4513" = "#8B4513" :=
  ⟨(C4_color_namer "#FFFFFF").1 ("#ffffff", "white") (by decide) (by decide),
   (C4_color_namer "#8B4513").2 (by decide)⟩

/-- A concrete studio configuration used to instantiate witnesses:
dramatic key light (intensity 2) positioned overhead (y = 5). -/
def sampleConfig : StudioConfig :=
  { lighting :=
      { ambientIntensity := 1/2, ambientColor := "#ffffff",
        keyLightIntensity := 2, keyLightColor := "#ffffff",
        keyLightPosition := { x := 0, y := 5, z := 0 },
        fillLightIntensity := 1/2, fillLightColor := "#e0e0e0",
        fillLightPosition := { x := -3, y := 2, z := 2 },
        rimLightIntensity := 1/5, rimLightColor := "#ffffff",
        rimLightPosition := { x := 0, y := 3, z := -4 } }
    environment :=
      { backgroundColor := "#f4f4f5", floorRoughness := 1/2,
        floorColor := "#f4f4f5", platformType := .none,
        platformColor := "#ffffff", platformMaterial := .matte }
    moodDescription := "Clean white minimalist studio" }

/-- C5 counterexample: the camera-context string "null" is valid JSON,
so `JSON.parse` succeeds inside the try (outcome `.null`) and the catch
is never entered; the first unguarded `cameraData` property read then
throws a TypeError, so the builder does not return normally — refuting
the original claim's "returns normally (never throws) for every
camera-context string" at a concrete input. -/
theorem C5_never_throws_refuted :
    Fibo1.buildFiboJsonParamsFromContext (fun _ => 0) sampleConfig [] .plain
      CameraParseOutcome.null none = .error { field := "horizontalDeg" } :=
  rfl

/-- C5 (amended): whenever the camera-context string is not valid JSON,
the catch substitutes the canonical default geometry — verticalDeg 90
(eye level), horizontalDeg 0 (front), distance 6 — and both builder
variants return normally with the eye-level / full-shot / front camera
record (in each variant's naming convention). The builder does not,
however, return normally on every string: a context that parses to JSON
null (such as "null") escapes the try/catch, and the first unguarded
`cameraData` property read throws an uncaught TypeError (reading
`horizontalDeg` in the first variant, `verticalDeg` in the second). -/
theorem C5_camera_defaults_amended (radToDeg : ℚ → ℤ) (config : StudioConfig)
    (objects : List StudioObject) (style : Style) (vp : Option String) :
    resolveCameraData none = defaultCameraData ∧
    defaultCameraData.verticalDeg = 90 ∧
    defaultCameraData.horizontalDeg = 0 ∧
    defaultCameraData.distance = 6 ∧
    Fibo1.buildFiboJsonParamsFromContext radToDeg config objects style .parseError vp =
      .ok (Fibo1.buildFiboJsonParams radToDeg config objects style none vp) ∧
    Fibo2.buildFiboJsonParamsFromContext radToDeg config objects style .parseError vp =
      .ok (Fibo2.buildFiboJsonParams radToDeg config objects style none vp) ∧
    (Fibo1.buildFiboJsonParams radToDeg config objects style none vp).camera =
      some { angle := "EYE_LEVEL", shot_type := "full_shot", position := "FRONT" } ∧
    (Fibo2.buildFiboJsonParams radToDeg config objects style none vp).camera =
      some { angle := "eye_level", shot_type := "full_shot", position := "front" } ∧
    Fibo1.buildFiboJsonParamsFromContext radToDeg config objects style .null vp =
      .error { field := "horizontalDeg" } ∧
    Fibo2.buildFiboJsonParamsFromContext radToDeg config objects style .null vp =
      .error { field := "verticalDeg" } := by
  exact ⟨rfl, rfl, rfl, rfl, rfl, rfl, rfl, rfl, rfl, rfl⟩

/-- C6: in the builder variant that derives the lighting direction
(`getLightingDirection`), the lighting sub-record's type is "dramatic"
when the key light intensity exceeds 1.5, "soft" below 0.5 and "studio"
otherwise, and its direction is "top" when the key light y exceeds 4,
else "side" when |x| > |z|, else "back" when z < 0, else "front". -/
theorem C6_lighting_classes (radToDeg : ℚ → ℤ) (config : StudioConfig)
    (objects : List StudioObject) (style : Style) (cam : Option CameraData)
    (vp : Option String) :
    ((Fibo2.buildFiboJsonParams radToDeg config objects style cam vp).lighting.map
        (fun l => l.type) = some (getLightingType config.lighting.keyLightIntensity)) ∧
    ((Fibo2.buildFiboJsonParams radToDeg config objects style cam vp).lighting.map
        (fun l => l.direction) =
      some (getLightingDirection config.lighting.keyLightPosition)) ∧
    (config.lighting.keyLightIntensity > 3/2 →
      getLightingType config.lighting.keyLightIntensity = "dramatic") ∧
    (config.lighting.keyLightIntensity < 1/2 →
      getLightingType config.lighting.keyLightIntensity = "soft") ∧
    (1/2 ≤ config.lighting.keyLightIntensity →
      config.lighting.keyLightIntensity ≤ 3/2 →
      getLightingType config.lighting.keyLightIntensity = "studio") ∧
    (config.lighting.keyLightPosition.y > 4 →
      getLightingDirection config.lighting.keyLightPosition = "top") ∧
    (config.lighting.keyLightPosition.y ≤ 4 →
      |config.lighting.keyLightPosition.x| > |config.lighting.keyLightPosition.z| →
      getLightingDirection config.lighting.keyLightPosition = "side") ∧
    (config.lighting.keyLightPosition.y ≤ 4 →
      |config.lighting.keyLightPosition.x| ≤ |config.lighting.keyLightPosition.z| →
      config.lighting.keyLightPosition.z < 0 →
      getLightingDirection config.lighting.keyLightPosition = "back") ∧
    (config.lighting.keyLightPosition.y ≤ 4 →
      |config.lighting.keyLightPosition.x| ≤ |config.lighting.keyLightPosition.z| →
      0 ≤ config.lighting.keyLightPosition.z →
      getLightingDirection config.lighting.keyLightPosition = "front") := by
  refine ⟨rfl, rfl, ?_, ?_, ?_, ?_, ?_, ?_, ?_⟩ <;>
    intros <;>
    simp only [getLightingType, getLightingDirection, jsAbsQ_eq_abs] <;>
    split_ifs <;>
    first
      | rfl
      | linarith

/-- Witness for C6 at `sampleConfig`: intensity 2 is "dramatic" and the
overhead key light position (0, 5, 0) is direction "top". -/
theorem C6_lighting_classes_witness :
    getLightingType 2 = "dramatic" ∧ getLightingDirection { x := 0, y := 5, z := 0 } = "top" :=
  ⟨(C6_lighting_classes (fun _ => 0) sampleConfig [] .plain none none).2.2.1
      (by norm_num [sampleConfig]),
   (C6_lighting_classes (fun _ => 0) sampleConfig [] .plain none none).2.2.2.2.2.1
      (by norm_num [sampleConfig])⟩

/-- C10: the builder applied to an empty objects list still returns
normally: with no variation label the subject is the empty string, the
object color name defaults to "neutral", the palette primary defaults to
"#ffffff", and the orientation clause of the prompt defaults to
"standing upright" — in both builder variants. -/
theorem C10_empty_scene_defaults (radToDeg : ℚ → ℤ) (config : StudioConfig)
    (style : Style) (cam : Option CameraData) :
    objectName [] none = "" ∧
    mainObjectColorName [] = "neutral" ∧
    orientationClause radToDeg [] = "standing upright" ∧
    ((Fibo1.buildFiboJsonParams radToDeg config [] style cam none).scene.map
        (fun sc => sc.subject) = some "") ∧
    ((Fibo1.buildFiboJsonParams radToDeg config [] style cam none).color_palette.map
        (fun cp => cp.primary) = some "#ffffff") ∧
    ((Fibo2.buildFiboJsonParams radToDeg config [] style cam none).scene.map
        (fun sc => sc.subject) = some "") ∧
    ((Fibo2.buildFiboJsonParams radToDeg config [] style cam none).color_palette.map
        (fun cp => cp.primary) = some "#ffffff") := by
  exact ⟨rfl, rfl, rfl, rfl, rfl, rfl, rfl⟩

/-- C7: `pushState` discards all entries after the current pointer,
appends the new snapshot and points at it; `undo` moves the pointer back
one step and is a no-op at the first entry; `redo` moves it forward one
step and is a no-op at the last entry; and in the push a / push b / undo
scenario the current state is `a`, while a subsequent push c makes redo
leave the current state at `c` (the redo tail was truncated by the
push). -/
theorem C7_history_store {α : Type} (s : UndoRedoState α) (a b c x : α)
    (hwf : s.index < s.history.length) :
    ((s.pushState x).history = s.history.take (s.index + 1) ++ [x]) ∧
    ((s.pushState x).current = some x) ∧
    (s.index = 0 → s.undo = s) ∧
    (0 < s.index → (s.undo).index = s.index - 1) ∧
    (s.index = s.history.length - 1 → s.redo = s) ∧
    (s.index < s.history.length - 1 → (s.redo).index = s.index + 1) ∧
    (((s.pushState a).pushState b).undo.current = some a) ∧
    ((((s.pushState a).pushState b).undo.pushState c).redo.current = some c) := by
  have hT : (s.history.take (s.index + 1)).length = s.index + 1 := by
    rw [List.length_take]
    omega
  have hget : ∀ (l : List α) (y : α) (n : ℕ), n = l.length →
      (l ++ [y]).get? n = some y := by
    intro l y n hn
    subst hn
    exact List.get?_concat_length l y
  have hH1 : (s.history.take (s.index + 1) ++ [a]).length = s.index + 2 := by
    rw [List.length_append, hT]
    simp
  have h1 : s.pushState a =
      { history := s.history.take (s.index + 1) ++ [a], index := s.index + 1 } := by
    unfold UndoRedoState.pushState
    rw [hH1]
    simp
  have h2 : (s.pushState a).pushState b =
      { history := (s.history.take (s.index + 1) ++ [a]) ++ [b],
        index := s.index + 2 } := by
    rw [h1]
    unfold UndoRedoState.pushState
    rw [List.take_of_length_le (le_of_eq hH1), List.length_append, hH1]
    simp
  have h3 : ((s.pushState a).pushState b).undo =
      { history := (s.history.take (s.index + 1) ++ [a]) ++ [b],
        index := s.index + 1 } := by
    rw [h2]
    unfold UndoRedoState.undo
    rw [if_pos (by omega : s.index + 2 > 0)]
    simp
  have hcur3 : ((s.pushState a).pushState b).undo.current = some a := by
    rw [h3]
    show ((s.history.take (s.index + 1) ++ [a]) ++ [b]).get? (s.index + 1) = some a
    rw [List.get?_append (by rw [hH1]; omega)]
    exact hget _ a _ hT.symm
  have h4 : ((s.pushState a).pushState b).undo.pushState c =
      { history := (s.history.take (s.index + 1) ++ [a]) ++ [c],
        index := s.index + 2 } := by
    rw [h3]
    unfold UndoRedoState.pushState
    rw [List.take_left' hH1, List.length_append, hH1]
    simp
  have h5 : (((s.pushState a).pushState b).undo.pushState c).redo =
      { history := (s.history.take (s.index + 1) ++ [a]) ++ [c],
        index := s.index + 2 } := by
    rw [h4]
    unfold UndoRedoState.redo
    rw [if_neg (by simp [List.length_append, hH1])]
  refine ⟨rfl, ?_, ?_, ?_, ?_, ?_, hcur3, ?_⟩
  · show (s.history.take (s.index + 1) ++ [x]).get?
        ((s.history.take (s.index + 1) ++ [x]).length - 1) = some x
    refine hget _ x _ ?_
    rw [List.length_append, hT]
    simp
  · intro h0
    unfold UndoRedoState.undo
    rw [if_neg (by omega)]
  · intro h0
    unfold UndoRedoState.undo
    rw [if_pos h0]
  · intro hlast
    unfold UndoRedoState.redo
    rw [if_neg (by omega)]
  · intro hlt
    unfold UndoRedoState.redo
    rw [if_pos hlt]
  · rw [h5]
    show ((s.history.take (s.index + 1) ++ [a]) ++ [c]).get? (s.index + 2) = some c
    exact hget _ c _ hH1.symm

/-- Witness for C7 on the singleton history [0] with pushes 1, 2, 3. -/
theorem C7_history_store_witness :
    (({ history := [0], index := 0 } : UndoRedoState ℕ).index <
        ({ history := [0], index := 0 } : UndoRedoState ℕ).history.length) ∧
    ((({ history := [0], index := 0 } : UndoRedoState ℕ).pushState 1).pushState 2).undo.current
      = some 1 :=
  ⟨by decide,
   (C7_history_store { history := [0], index := 0 } 1 2 3 4 (by decide)).2.2.2.2.2.2.1⟩

/-- A primary-provider outcome the route falls through on: non-2xx,
thrown, or a 2xx body without images. -/
def falFailed (res : NetResult FalData) : Prop :=
  match res with
  | .ok d => d.images = []
  | .httpErr _ _ => True
  | .thrown _ => True

/-- A secondary-provider outcome the route falls through on. -/
def briaFailed (res : NetResult FiboResponse) : Prop :=
  match res with
  | .ok _ => False
  | .httpErr _ _ => True
  | .thrown _ => True

/-- A provider oracle for the batch scenario: succeeds on every variant
except "b". -/
def genOnlySecondFails : String → Except String String :=
  fun p => if p = "b" then .error "Provider failure" else .ok ("https://img/" ++ p)

/-- C8 counterexample: three variants, only the second provider call
fails ("a" and "c" would succeed), yet the gallery does not end with 2
successful images — the single try/catch around the loop aborts the
whole batch at the failure, so only the first image was appended. -/
theorem C8_batch_two_images_refuted :
    genOnlySecondFails "a" = .ok "https://img/a" ∧
    genOnlySecondFails "b" = .error "Provider failure" ∧
    genOnlySecondFails "c" = .ok "https://img/c" ∧
    ¬ (handleBatchGenerate genOnlySecondFails [] ["a", "b", "c"]).1.length = 2 := by
  refine ⟨rfl, rfl, rfl, ?_⟩
  decide

/-- C8 amended: the batch is processed sequentially and earlier
successes are kept, but the whole loop sits in one try/catch, so the
first failure aborts the remaining variants. With only the 2nd of 3
provider calls failing: exactly the first variant's image is in the
gallery (prepended — the gallery is newest-first), the 3rd variant is
never attempted, and the caller is informed of the failure (the alert). -/
theorem C8_batch_aborts_at_failure (gen : String → Except String String)
    (gallery : List String) (p1 p2 p3 u1 e : String)
    (h1 : gen p1 = .ok u1) (h2 : gen p2 = .error e) :
    handleBatchGenerate gen gallery [p1, p2, p3] =
      (u1 :: gallery, [p1, p2], some e) := by
  simp only [handleBatchGenerate, h1, h2]

/-- Witness for C8's amended claim on the concrete failing oracle. -/
theorem C8_batch_aborts_at_failure_witness :
    handleBatchGenerate genOnlySecondFails [] ["a", "b", "c"] =
      (["https://img/a"], ["a", "b"], some "Provider failure") :=
  C8_batch_aborts_at_failure genOnlySecondFails [] "a" "b" "c"
    "https://img/a" "Provider failure" rfl rfl


/-- C9: with both provider keys configured, the route's first attempt is
always FAL with the prompt-based payload; on FAL success with images the
answer is the normalized 200 body (first URL list, pseudo-random seed
attached) and BRIA is not attempted; on FAL failure the trace shows BRIA
attempted next with the full structured body; when both fail the route
answers 503 with the actionable message; a non-2xx answer makes the
client send exactly one degraded retry `{prompt, num_results: 1, sync:
true}`; and when every attempt of both rounds fails the client's outcome
is the thrown "Backend API error: 503" — never a URL. -/
theorem C9_orchestrator_chain (env : ServerEnv) (body : FiboJsonParams)
    (kf kb : String) (hf : env.falApiKey = some kf) (hb : env.fiboApiKey = some kb) :
    ((generateFiboRoute env body).2.head? = some (.fal (falRequestOf body))) ∧
    (∀ d u us, env.falCall (falRequestOf body) = .ok d → d.images = u :: us →
      generateFiboRoute env body =
        ({ status := 200,
           body := .json { result := [{ urls := d.images, seed := some env.randomSeed }] } },
         [.fal (falRequestOf body)])) ∧
    (falFailed (env.falCall (falRequestOf body)) →
      (generateFiboRoute env body).2 = [.fal (falRequestOf body), .bria body]) ∧
    (∀ data, falFailed (env.falCall (falRequestOf body)) →
      env.briaCall body = .ok data →
      (generateFiboRoute env body).1 = { status := 200, body := .json data }) ∧
    (falFailed (env.falCall (falRequestOf body)) →
      briaFailed (env.briaCall body) →
      (generateFiboRoute env body).1 =
        { status := 503, body := .err svcUnavailableMsg }) ∧
    (¬ (generateFiboRoute env body).1.isOk = true →
      (generateFiboImageFromReference (fun b => (generateFiboRoute env b).1) body).2 =
        [body, degradedPayload body.prompt]) ∧
    (falFailed (env.falCall (falRequestOf body)) →
      briaFailed (env.briaCall body) →
      falFailed (env.falCall (falRequestOf (degradedPayload body.prompt))) →
      briaFailed (env.briaCall (degradedPayload body.prompt)) →
      (generateFiboImageFromReference (fun b => (generateFiboRoute env b).1) body).1 =
        .error "Backend API error: 503") := by
  have hroute : ∀ b : FiboJsonParams,
      falFailed (env.falCall (falRequestOf b)) → briaFailed (env.briaCall b) →
      generateFiboRoute env b =
        ({ status := 503, body := .err svcUnavailableMsg },
         [.fal (falRequestOf b), .bria b]) := by
    intro b hfal hbria
    unfold generateFiboRoute falStep
    rw [hf, hb]
    rcases hc : env.falCall (falRequestOf b) with d | ⟨st, txt⟩ | m
    · rw [hc] at hfal
      have hi : d.images = [] := hfal
      rcases hd : env.briaCall b with data | ⟨st2, txt2⟩ | m2
      · rw [hd] at hbria
        exact False.elim hbria
      · simp [hi]
      · simp [hi]
    · rcases hd : env.briaCall b with data | ⟨st2, txt2⟩ | m2
      · rw [hd] at hbria
        exact False.elim hbria
      · simp
      · simp
    · rcases hd : env.briaCall b with data | ⟨st2, txt2⟩ | m2
      · rw [hd] at hbria
        exact False.elim hbria
      · simp
      · simp
  refine ⟨?_, ?_, ?_, ?_, ?_, ?_, ?_⟩
  · unfold generateFiboRoute falStep
    rw [hf, hb]
    rcases hc : env.falCall (falRequestOf body) with d | ⟨st, txt⟩ | m
    · rcases hi : d.images with _ | ⟨u, us⟩
      · rcases hd : env.briaCall body with data | ⟨st2, txt2⟩ | m2 <;> simp [hi]
      · simp [hi]
    · rcases hd : env.briaCall body with data | ⟨st2, txt2⟩ | m2 <;> simp
    · rcases hd : env.briaCall body with data | ⟨st2, txt2⟩ | m2 <;> simp
  · intro d u us h1 h2
    unfold generateFiboRoute falStep
    rw [hf, hb, h1]
    simp [h2]
  · intro hfal
    unfold generateFiboRoute falStep
    rw [hf, hb]
    rcases hc : env.falCall (falRequestOf body) with d | ⟨st, txt⟩ | m
    · rw [hc] at hfal
      have hi : d.images = [] := hfal
      rcases hd : env.briaCall body with data | ⟨st2, txt2⟩ | m2 <;> simp [hi]
    · rcases hd : env.briaCall body with data | ⟨st2, txt2⟩ | m2 <;> simp
    · rcases hd : env.briaCall body with data | ⟨st2, txt2⟩ | m2 <;> simp
  · intro data hfal hok
    unfold generateFiboRoute falStep
    rw [hf, hb, hok]
    rcases hc : env.falCall (falRequestOf body) with d | ⟨st, txt⟩ | m
    · rw [hc] at hfal
      have hi : d.images = [] := hfal
      simp [hi]
    · simp
    · simp
  · intro hfal hbria
    rw [hroute body hfal hbria]
  · intro hnotok
    unfold generateFiboImageFromReference
    simp only []
    rw [if_neg hnotok]
    by_cases hfb :
        ((generateFiboRoute env (degradedPayload body.prompt)).1).isOk = true
    · rw [if_pos hfb]
      rcases hu : ((generateFiboRoute env (degradedPayload body.prompt)).1).body.firstUrl
          with _ | u
      · rcases hu2 : ((generateFiboRoute env body).1).body.firstUrl with _ | u2 <;> simp
      · simp
    · rw [if_neg hfb]
  · intro hfal hbria hfal2 hbria2
    have r1 := hroute body hfal hbria
    have r2 := hroute (degradedPayload body.prompt) hfal2 hbria2
    unfold generateFiboImageFromReference
    simp only []
    rw [r1, r2]
    show Except.error ("Backend API error: " ++ toString (503 : ℕ)) =
      Except.error "Backend API error: 503"
    rw [show ("Backend API error: " ++ toString (503 : ℕ) : String) =
      "Backend API error: 503" from rfl]

/-- A concrete orchestrator environment in which both providers are
configured and both always answer HTTP 500. -/
def sampleEnvAllFail : ServerEnv :=
  { falApiKey := some "fal-key"
    fiboApiKey := some "bria-key"
    falCall := fun _ => .httpErr 500 "Internal Server Error"
    briaCall := fun _ => .httpErr 500 "Internal Server Error"
    randomSeed := 42 }

/-- Witness for C9: with both providers configured and failing, the
client's outcome is the typed "Backend API error: 503" failure. -/
theorem C9_orchestrator_chain_witness :
    (generateFiboImageFromReference
      (fun b => (generateFiboRoute sampleEnvAllFail b).1)
      (degradedPayload "a cube")).1 = .error "Backend API error: 503" :=
  (C9_orchestrator_chain sampleEnvAllFail (degradedPayload "a cube")
      "fal-key" "bria-key" rfl rfl).2.2.2.2.2.2
    True.intro True.intro True.intro True.intro
